import Mathlib

/-!
Verification of the Eco.Miner accrual-ledger server.

The server is a set of HTTP handlers over a key-value store. Each handler
loads a user record, mutates it in memory, and persists it with `kv.set`
only on the success path. We embed the handlers as pure functions: every
handler returns its response together with the state it left persisted in
the store, so error paths that return before any `kv.set` leave the
persisted state equal to the input state.

JavaScript numbers are modelled as rationals (the arithmetic in the
handlers is additions, multiplications, divisions by constants and
`Math.floor`/`Math.ceil`, all exact over ℚ); timestamps are rationals in
milliseconds, counters are naturals.
-/

namespace EcoMiner

/-- Record stored at key `user:<id>`, as initialised by the signup handler. -/
@[ext] structure UserData where
  balance : ℚ
  totalMined : ℚ
  baseMiningRate : ℚ
  currentMiningRate : ℚ
  adsWatchedToday : ℕ
  lastAdWatchTime : ℚ
  lastResetTime : ℚ
  miningStartTime : ℚ
  referralCode : String
  referredBy : Option String
  referralCount : ℕ
  depositBoostCap : ℕ
  canWithdraw : Bool
  withdrawEligibleAt : ℚ
deriving DecidableEq, Repr

/-- Initial record built by the signup handler: zero balances, base rate
0.0000001 per second, default ad cap 50, withdrawal eligibility 7 days out. -/
def initialUserData (referralCode : String) (now : ℚ) : UserData :=
  { balance := 0
    totalMined := 0
    baseMiningRate := 1 / 10000000
    currentMiningRate := 1 / 10000000
    adsWatchedToday := 0
    lastAdWatchTime := 0
    lastResetTime := now
    miningStartTime := now
    referralCode := referralCode
    referredBy := none
    referralCount := 0
    depositBoostCap := 50
    canWithdraw := false
    withdrawEligibleAt := now + 7 * 24 * 60 * 60 * 1000 }

/-- Accrual settlement block shared by the mining-status and watch-ad
handlers: credit `currentMiningRate * (now - miningStartTime) / 1000` to
`balance` and `totalMined`, stamp `miningStartTime := now`, then perform the
daily rollover (rate back to base, ad counter to 0, `lastResetTime := now`)
when at least 24 hours have passed since `lastResetTime`. The source does
not clamp the elapsed time to be non-negative. -/
def settle (u : UserData) (now : ℚ) : UserData :=
  let timeDiff : ℚ := (now - u.miningStartTime) / 1000
  let minedAmount : ℚ := u.currentMiningRate * timeDiff
  let u1 : UserData :=
    { u with
      balance := u.balance + minedAmount
      totalMined := u.totalMined + minedAmount
      miningStartTime := now }
  let hoursSinceReset : ℚ := (now - u1.lastResetTime) / (1000 * 60 * 60)
  if 24 ≤ hoursSinceReset then
    { u1 with
      currentMiningRate := u1.baseMiningRate
      adsWatchedToday := 0
      lastResetTime := now }
  else
    u1

/-- C3 (amended): settlement credits exactly `currentMiningRate *
(now - miningStartTime) / 1000` to both `balance` and `totalMined` — with no
clamping, so the credit is negative when `miningStartTime` is in the
future — and stamps `miningStartTime := now`. -/
theorem settle_accrues_unclamped_elapsed (u : UserData) (now : ℚ) :
    (settle u now).balance
        = u.balance + u.currentMiningRate * ((now - u.miningStartTime) / 1000)
      ∧ (settle u now).totalMined
        = u.totalMined + u.currentMiningRate * ((now - u.miningStartTime) / 1000)
      ∧ (settle u now).miningStartTime = now := by
  simp only [settle]
  split_ifs with h <;> simp

/-- C3 (counterexample): a record with `miningStartTime` 1000 ms in the
future of `now = 0` and rate 1 loses one currency unit at settlement, so the
balance change is not `rate * max 0 (elapsed seconds)` as the claim states. -/
theorem settle_clamping_counterexample :
    (settle
        { initialUserData "ECOFUTURE" 0 with
            balance := 5, currentMiningRate := 1, miningStartTime := 1000 } 0).balance
      ≠ (5 : ℚ) + 1 * max 0 ((0 - 1000) / 1000) := by
  norm_num [settle, initialUserData]

/-- C8: settlement is idempotent at a fixed timestamp: a second `settle` at
the same `now` changes nothing, whether or not the first call performed the
daily rollover. -/
theorem settle_idempotent (u : UserData) (now : ℚ) :
    settle (settle u now) now = settle u now := by
  simp only [settle]
  split_ifs with h1 h2 <;> ext <;> simp_all

/-- Error responses of the watch-ad handler, past authentication and the
user-not-found check. -/
inductive WatchAdError
  | DailyLimitReached
deriving DecidableEq, Repr

/-- Success payload of the watch-ad handler. -/
structure WatchAdResponse where
  newMiningRate : ℚ
  adsWatchedToday : ℕ
  balance : ℚ
deriving DecidableEq, Repr

/-- Watch-ad handler over a fetched user record: settles accrual and the
daily rollover in memory, rejects with the daily-limit error when
`adsWatchedToday >= depositBoostCap` — returning before any `kv.set`, so the
persisted record (the second component) stays the input record — and
otherwise bumps the rate by 0.0000001, increments the ad counter, stamps
`lastAdWatchTime` and persists the settled, boosted record. -/
def watchAdHandler (u : UserData) (now : ℚ) :
    Except WatchAdError WatchAdResponse × UserData :=
  let s := settle u now
  if s.depositBoostCap ≤ s.adsWatchedToday then
    (Except.error WatchAdError.DailyLimitReached, u)
  else
    let s2 : UserData :=
      { s with
        currentMiningRate := s.currentMiningRate + 1 / 10000000
        adsWatchedToday := s.adsWatchedToday + 1
        lastAdWatchTime := now }
    (Except.ok
      { newMiningRate := s2.currentMiningRate
        adsWatchedToday := s2.adsWatchedToday
        balance := s2.balance }, s2)

/-- C6: the watch-ad call fails with the daily-limit error exactly when the
settled ad counter has reached the settled cap; when at least 24 hours have
passed since `lastResetTime` the settlement resets the counter to 0 and the
rate to base, and a call below the cap persists the counter incremented by 1
and the rate incremented by 0.0000001 over their settled values. -/
theorem watchAd_daily_limit (u : UserData) (now : ℚ) :
    ((watchAdHandler u now).1 = Except.error WatchAdError.DailyLimitReached
        ↔ (settle u now).depositBoostCap ≤ (settle u now).adsWatchedToday)
      ∧ ((24 : ℚ) ≤ (now - u.lastResetTime) / (1000 * 60 * 60) →
          (settle u now).adsWatchedToday = 0
            ∧ (settle u now).currentMiningRate = u.baseMiningRate)
      ∧ ((settle u now).adsWatchedToday < (settle u now).depositBoostCap →
          (watchAdHandler u now).2.adsWatchedToday
              = (settle u now).adsWatchedToday + 1
            ∧ (watchAdHandler u now).2.currentMiningRate
              = (settle u now).currentMiningRate + 1 / 10000000) := by
  refine ⟨?_, ?_, ?_⟩
  · simp only [watchAdHandler]
    split_ifs with h <;> simp [h]
  · intro h
    simp only [settle]
    split_ifs
    simp_all
  · intro h
    simp only [watchAdHandler]
    rw [if_neg (not_le.mpr h)]
    exact ⟨rfl, rfl⟩

/-- C10: when the watch-ad call fails with the daily-limit error, the
handler returns before any write, so the persisted record is exactly the
pre-call record — the settlement and rollover computed in memory before the
cap check are discarded. -/
theorem watchAd_limit_error_writes_nothing (u : UserData) (now : ℚ)
    (h : (watchAdHandler u now).1 = Except.error WatchAdError.DailyLimitReached) :
    (watchAdHandler u now).2 = u := by
  simp only [watchAdHandler] at h ⊢
  split_ifs at h ⊢
  rfl

/-- C10 (witness): a capped record (50 of 50 ads) with ten seconds of
pending accrual at rate 1: the call fails and the persisted record is the
original, the in-memory settlement discarded. -/
theorem watchAd_limit_error_writes_nothing_witness :
    (watchAdHandler
        { initialUserData "ECOWADW" 0 with
            balance := 5, currentMiningRate := 1, adsWatchedToday := 50 } 10000).2
      = { initialUserData "ECOWADW" 0 with
            balance := 5, currentMiningRate := 1, adsWatchedToday := 50 } :=
  watchAd_limit_error_writes_nothing _ 10000
    (by norm_num [watchAdHandler, settle, initialUserData])

/-- Error response of the deposit-boost handler. -/
inductive DepositError
  | BelowMinimum
deriving DecidableEq, Repr

/-- Deposit-boost handler over a fetched user record: rejects a missing
amount (zero is falsy in the source) or one under the $2 minimum, otherwise
raises `depositBoostCap` by `floor(amount / 2) * 50` — a capacity increase
only, no other field is touched — and persists. -/
def depositBoostHandler (u : UserData) (amount : ℚ) :
    Except DepositError ℕ × UserData :=
  if amount = 0 ∨ amount < 2 then
    (Except.error DepositError.BelowMinimum, u)
  else
    let u2 : UserData :=
      { u with depositBoostCap := u.depositBoostCap + (⌊amount / 2⌋).toNat * 50 }
    (Except.ok u2.depositBoostCap, u2)

/-- C9: a deposit of at least $2 changes only `depositBoostCap`, raising it
by `floor(amount / 2) * 50` — the persisted record is the input record with
just that field replaced, so no currency is minted — and a deposit under $2
fails with the below-minimum error leaving the record unchanged. -/
theorem depositBoost_capacity_only (u : UserData) (amount : ℚ) :
    (2 ≤ amount →
        (depositBoostHandler u amount).1
            = Except.ok (u.depositBoostCap + (⌊amount / 2⌋).toNat * 50)
          ∧ (depositBoostHandler u amount).2
            = { u with
                  depositBoostCap := u.depositBoostCap + (⌊amount / 2⌋).toNat * 50 })
      ∧ (amount < 2 →
          (depositBoostHandler u amount).1 = Except.error DepositError.BelowMinimum
            ∧ (depositBoostHandler u amount).2 = u) := by
  constructor <;> intro h
  · have hne : ¬ (amount = 0 ∨ amount < 2) := by
      rintro (rfl | hc)
      · norm_num at h
      · linarith
    simp only [depositBoostHandler]
    rw [if_neg hne]
    exact ⟨rfl, rfl⟩
  · simp only [depositBoostHandler]
    rw [if_pos (Or.inr h)]
    exact ⟨rfl, rfl⟩

/-- Error responses of the request-withdrawal handler, past authentication
and the user-not-found check. -/
inductive WithdrawalError
  | MissingFields
  | NotYetEligible (daysLeft : ℤ)
  | BelowMinimum
  | InsufficientBalance
deriving DecidableEq, Repr

/-- Status of a withdrawal record. -/
inductive WithdrawalStatus
  | pending
  | completed
deriving DecidableEq, Repr

/-- Record stored at key `withdrawal:<userId>:<timestamp>`. -/
structure WithdrawalData where
  userId : String
  amount : ℚ
  ecocashNumber : String
  fullName : String
  method : String
  status : WithdrawalStatus
  requestedAt : ℚ
  processedAt : Option ℚ
deriving DecidableEq, Repr

/-- Request-withdrawal handler over a fetched user record: validates the
required fields (a zero amount is falsy in the source), then checks the
eligibility timestamp (reporting the remaining days rounded up), the $100
minimum and the stored balance, in that order, each error returning before
any write; on success it debits the balance and persists, together, the
debited user record and a pending withdrawal record with a null
`processedAt`. The second component is the persisted user record, the third
the persisted withdrawal record, if one was created. No accrual settlement
happens anywhere in this handler. -/
def requestWithdrawalHandler (userId : String) (u : UserData)
    (now amount : ℚ) (ecocashNumber fullName : String) :
    Except WithdrawalError ℚ × UserData × Option WithdrawalData :=
  if amount = 0 ∨ ecocashNumber = "" ∨ fullName = "" then
    (Except.error WithdrawalError.MissingFields, u, none)
  else if now < u.withdrawEligibleAt then
    (Except.error (WithdrawalError.NotYetEligible
        ⌈(u.withdrawEligibleAt - now) / (24 * 60 * 60 * 1000)⌉), u, none)
  else if amount < 100 then
    (Except.error WithdrawalError.BelowMinimum, u, none)
  else if u.balance < amount then
    (Except.error WithdrawalError.InsufficientBalance, u, none)
  else
    let w : WithdrawalData :=
      { userId := userId
        amount := amount
        ecocashNumber := ecocashNumber
        fullName := fullName
        method := "Ecocash"
        status := WithdrawalStatus.pending
        requestedAt := now
        processedAt := none }
    let u2 : UserData := { u with balance := u.balance - amount }
    (Except.ok u2.balance, u2, some w)

/-- C4: a withdrawal record is persisted exactly when the call succeeds; on
success the persisted balance is the stored balance minus the amount and the
record is pending with a null `processedAt`; on any failure both the user
record and the withdrawal keyspace are untouched. -/
theorem requestWithdrawal_conservation (userId : String) (u : UserData)
    (now amount : ℚ) (e f : String) :
    ((requestWithdrawalHandler userId u now amount e f).2.2.isSome
        ↔ (requestWithdrawalHandler userId u now amount e f).1.isOk)
      ∧ ((requestWithdrawalHandler userId u now amount e f).1.isOk →
          (requestWithdrawalHandler userId u now amount e f).2.1.balance
              = u.balance - amount
            ∧ (requestWithdrawalHandler userId u now amount e f).2.2
              = some
                  { userId := userId
                    amount := amount
                    ecocashNumber := e
                    fullName := f
                    method := "Ecocash"
                    status := WithdrawalStatus.pending
                    requestedAt := now
                    processedAt := none })
      ∧ (¬ (requestWithdrawalHandler userId u now amount e f).1.isOk →
          (requestWithdrawalHandler userId u now amount e f).2.1 = u
            ∧ (requestWithdrawalHandler userId u now amount e f).2.2 = none) := by
  simp only [requestWithdrawalHandler]
  split_ifs <;> simp [Except.isOk, Except.toBool]

/-- C2 (amended): the request-withdrawal handler performs no accrual
settlement: the persisted user record keeps `totalMined`, `miningStartTime`,
`currentMiningRate` and `adsWatchedToday` exactly as stored, and once the
field validation and the eligibility and minimum checks pass, the
sufficient-balance check compares the requested amount against the stored,
un-settled balance. -/
theorem requestWithdrawal_reads_unsettled_state (userId : String) (u : UserData)
    (now amount : ℚ) (e f : String) :
    (requestWithdrawalHandler userId u now amount e f).2.1.totalMined = u.totalMined
      ∧ (requestWithdrawalHandler userId u now amount e f).2.1.miningStartTime
          = u.miningStartTime
      ∧ (requestWithdrawalHandler userId u now amount e f).2.1.currentMiningRate
          = u.currentMiningRate
      ∧ (requestWithdrawalHandler userId u now amount e f).2.1.adsWatchedToday
          = u.adsWatchedToday
      ∧ (¬ (amount = 0 ∨ e = "" ∨ f = "") → u.withdrawEligibleAt ≤ now →
          100 ≤ amount → u.balance < amount →
          (requestWithdrawalHandler userId u now amount e f).1
            = Except.error WithdrawalError.InsufficientBalance) := by
  simp only [requestWithdrawalHandler]
  split_ifs <;> simp_all [not_lt]

/-- Stored record used to exhibit the missing settlement in the withdrawal
handler: one full second of accrual at rate 1 is pending, so its settled
balance is 101 while its stored balance is 100. -/
def staleBalanceUser : UserData :=
  { initialUserData "ECOSTALE" 0 with
      balance := 100, currentMiningRate := 1, withdrawEligibleAt := 0 }

/-- C2 (counterexample): withdrawing 101 from `staleBalanceUser` at `now =
1000` fails with the insufficient-balance error even though the settled
balance at that instant is 101; had the handler settled accrual and
persisted it before the checks, as the claim states, the check would have
seen a sufficient balance. -/
theorem requestWithdrawal_no_settle_counterexample :
    (requestWithdrawalHandler "u1" staleBalanceUser 1000 101 "0771234567" "Jane Doe").1
        = Except.error WithdrawalError.InsufficientBalance
      ∧ (101 : ℚ) ≤ (settle staleBalanceUser 1000).balance := by
  constructor
  · norm_num [requestWithdrawalHandler, staleBalanceUser, initialUserData]
    simp
  · norm_num [settle, staleBalanceUser, initialUserData]

/-- Error responses of the referral handlers. -/
inductive ReferralError
  | NotFound
  | AlreadyReferred
  | InvalidCode
  | SelfReferral
  | ReferrerNotFound
deriving DecidableEq, Repr

/-- Apply-referral handler over the `user:<id>` keyspace: `codeOwner` is the
result of looking the uppercased submitted code up in the `referral:<code>`
index. Checks, in order: the referee record exists, its `referredBy` is not
already set, the code resolves to an owner, the owner is not the referee,
and the record of the owner exists — each failure returning before any write. On
success it links `referredBy := owner`; when the referee has watched at
least 3 ads it additionally grants the referee +0.000003 to the rate and the
referrer +0.000002 to the rate plus one more `referralCount`, persisting the
referrer and then the referee. -/
def applyReferralHandler (users : String → Option UserData)
    (codeOwner : Option String) (userId : String) :
    Except ReferralError Unit × (String → Option UserData) :=
  match users userId with
  | none => (Except.error ReferralError.NotFound, users)
  | some userData =>
    if userData.referredBy.isSome then
      (Except.error ReferralError.AlreadyReferred, users)
    else
      match codeOwner with
      | none => (Except.error ReferralError.InvalidCode, users)
      | some referrerId =>
        if referrerId = userId then
          (Except.error ReferralError.SelfReferral, users)
        else
          match users referrerId with
          | none => (Except.error ReferralError.ReferrerNotFound, users)
          | some referrerData =>
            let userData1 : UserData :=
              { userData with referredBy := some referrerId }
            if 3 ≤ userData1.adsWatchedToday then
              let userData2 : UserData :=
                { userData1 with
                    currentMiningRate := userData1.currentMiningRate + 3 / 1000000 }
              let referrerData2 : UserData :=
                { referrerData with
                    currentMiningRate := referrerData.currentMiningRate + 2 / 1000000
                    referralCount := referrerData.referralCount + 1 }
              (Except.ok (),
                Function.update
                  (Function.update users referrerId (some referrerData2))
                  userId (some userData2))
            else
              (Except.ok (), Function.update users userId (some userData1))

/-- C7: once `referredBy` is set, every apply-referral call fails with the
already-referred error — for every possible outcome of the code lookup
(valid, self-owned or invalid), since the check precedes the lookup — and
the user keyspace is left exactly as it was. -/
theorem applyReferral_one_time_linkage (users : String → Option UserData)
    (codeOwner : Option String) (userId : String) (u : UserData)
    (hu : users userId = some u) (h : u.referredBy.isSome) :
    (applyReferralHandler users codeOwner userId).1
        = Except.error ReferralError.AlreadyReferred
      ∧ (applyReferralHandler users codeOwner userId).2 = users := by
  simp only [applyReferralHandler, hu]
  rw [if_pos h]
  exact ⟨rfl, rfl⟩

/-- Referee record already linked to a referrer, for the C7 witness. -/
def linkedUser : UserData :=
  { initialUserData "ECOLNKD" 0 with referredBy := some "R0" }

/-- User keyspace holding only `linkedUser`, for the C7 witness. -/
def linkedStore : String → Option UserData :=
  fun id => if id = "U0" then some linkedUser else none

/-- C7 (witness): the already-linked user U0 submitting a code owned by R0
is rejected with the already-referred error and the keyspace is unchanged. -/
theorem applyReferral_one_time_linkage_witness :
    (applyReferralHandler linkedStore (some "R0") "U0").1
        = Except.error ReferralError.AlreadyReferred
      ∧ (applyReferralHandler linkedStore (some "R0") "U0").2 = linkedStore :=
  applyReferral_one_time_linkage linkedStore (some "R0") "U0" linkedUser
    (by simp [linkedStore]) (by simp [linkedUser])

/-- C1 (amended): a successful apply-referral call by a referee who has
watched at least 3 ads persists the referee with `referredBy` linked and the
rate raised by exactly 0.000003, and the referrer with the rate raised by
exactly 0.000002 — which is 2 × 0.000001, twenty times the per-ad increment
0.0000001, not two times — and `referralCount` raised by exactly 1. -/
theorem applyReferral_bonus_amounts (users : String → Option UserData)
    (userId referrerId : String) (u r : UserData)
    (hu : users userId = some u) (hnotref : u.referredBy = none)
    (hne : referrerId ≠ userId) (hr : users referrerId = some r)
    (hads : 3 ≤ u.adsWatchedToday) :
    (applyReferralHandler users (some referrerId) userId).1 = Except.ok ()
      ∧ (applyReferralHandler users (some referrerId) userId).2 userId
          = some
              { u with
                  referredBy := some referrerId
                  currentMiningRate := u.currentMiningRate + 3 / 1000000 }
      ∧ (applyReferralHandler users (some referrerId) userId).2 referrerId
          = some
              { r with
                  currentMiningRate := r.currentMiningRate + 2 / 1000000
                  referralCount := r.referralCount + 1 } := by
  simp only [applyReferralHandler, hu, hnotref, hr, Option.isSome_none,
    Bool.false_eq_true, if_false, if_neg hne]
  rw [if_pos hads]
  refine ⟨rfl, ?_, ?_⟩
  · simp
  · simp [Function.update_noteq hne]

/-- Referee who has watched exactly 3 ads, for the C1 counterexample and
witness. -/
def refereeU : UserData := { initialUserData "ECOREFE" 0 with adsWatchedToday := 3 }

/-- Referrer at the initial rate, for the C1 counterexample and witness. -/
def referrerU : UserData := initialUserData "ECOREFR" 0

/-- User keyspace holding the referee U1 and the referrer R1, for the C1
counterexample and witness. -/
def referralStore : String → Option UserData :=
  fun id => if id = "U1" then some refereeU else if id = "R1" then some referrerU else none

/-- C1 (counterexample): after U1 (3 ads watched) applies the code of R1, the
persisted referrer record is not the stored one with its rate raised by
`2 * 0.0000001` (twice the per-ad increment), as the claim states: the
handler adds 0.000002, ten times as much. -/
theorem applyReferral_referrer_rate_counterexample :
    (applyReferralHandler referralStore (some "R1") "U1").2 "R1"
      ≠ some
          { referrerU with
              currentMiningRate := referrerU.currentMiningRate + 2 * (1 / 10000000)
              referralCount := referrerU.referralCount + 1 } := by
  have h := applyReferral_bonus_amounts referralStore "U1" "R1" refereeU referrerU
    (by simp [referralStore]) (by simp [refereeU, initialUserData])
    (by simp) (by simp [referralStore]) (by simp [refereeU, initialUserData])
  rw [h.2.2]
  simp only [ne_eq, Option.some.injEq, UserData.mk.injEq, not_and]
  intro h1 h2 h3 h4 h5 h6 h7 h8 h9 h10 h11
  norm_num [referrerU, initialUserData] at h4

/-- C1 (witness): in the concrete two-user keyspace the call succeeds, the rate of U1
rises by 0.000003 and the rate of R1 rises by 0.000002 with one more referral
counted. -/
theorem applyReferral_bonus_amounts_witness :
    (applyReferralHandler referralStore (some "R1") "U1").1 = Except.ok ()
      ∧ (applyReferralHandler referralStore (some "R1") "U1").2 "U1"
          = some
              { refereeU with
                  referredBy := some "R1"
                  currentMiningRate := refereeU.currentMiningRate + 3 / 1000000 }
      ∧ (applyReferralHandler referralStore (some "R1") "U1").2 "R1"
          = some
              { referrerU with
                  currentMiningRate := referrerU.currentMiningRate + 2 / 1000000
                  referralCount := referrerU.referralCount + 1 } :=
  applyReferral_bonus_amounts referralStore "U1" "R1" refereeU referrerU
    (by simp [referralStore]) (by simp [refereeU, initialUserData])
    (by simp) (by simp [referralStore]) (by simp [refereeU, initialUserData])

/-- State read and written by the check-referral-bonus handler: the
`user:<id>` keyspace and the `referral_bonus:<referrerId>:<refereeId>`
markers, `false` standing for an absent marker key, which is falsy in the
source. -/
structure BonusState where
  users : String → Option UserData
  markers : String → String → Bool

/-- Check-referral-bonus handler: when the caller was referred, has watched
at least 3 ads, the referrer record exists, the caller has mined anything
and the bonus marker for the (referrer, referee) pair is absent, it credits
$0.05 to the referrer balance and sets the marker, reporting that the
bonus was applied; on every other path it reports `false` and writes
nothing. -/
def checkReferralBonusHandler (st : BonusState) (userId : String) :
    Except ReferralError Bool × BonusState :=
  match st.users userId with
  | none => (Except.error ReferralError.NotFound, st)
  | some userData =>
    match userData.referredBy with
    | none => (Except.ok false, st)
    | some referrerId =>
      if 3 ≤ userData.adsWatchedToday then
        match st.users referrerId with
        | none => (Except.ok false, st)
        | some referrerData =>
          if st.markers referrerId userId = false ∧ 0 < userData.totalMined then
            (Except.ok true,
              { users := Function.update st.users referrerId
                  (some { referrerData with balance := referrerData.balance + 5 / 100 })
                markers := fun a b =>
                  if a = referrerId ∧ b = userId then true else st.markers a b })
          else (Except.ok false, st)
      else (Except.ok false, st)

/-- C5: for a referred caller with at least 3 ads watched, positive lifetime
mining, an existing referrer record and no marker yet, the first
check-referral-bonus call reports the bonus applied, credits the referrer
with exactly $0.05 and sets the marker; calling again on the resulting state
reports no bonus and leaves the whole state untouched, so the credit is paid
exactly once. -/
theorem checkBonus_credits_exactly_once (st : BonusState)
    (userId referrerId : String) (u r : UserData)
    (hu : st.users userId = some u) (href : u.referredBy = some referrerId)
    (hads : 3 ≤ u.adsWatchedToday) (hr : st.users referrerId = some r)
    (hmined : 0 < u.totalMined) (hmark : st.markers referrerId userId = false) :
    (checkReferralBonusHandler st userId).1 = Except.ok true
      ∧ (checkReferralBonusHandler st userId).2.users referrerId
          = some { r with balance := r.balance + 5 / 100 }
      ∧ (checkReferralBonusHandler st userId).2.markers referrerId userId = true
      ∧ (checkReferralBonusHandler
            (checkReferralBonusHandler st userId).2 userId).1 = Except.ok false
      ∧ (checkReferralBonusHandler
            (checkReferralBonusHandler st userId).2 userId).2
          = (checkReferralBonusHandler st userId).2 := by
  have h1 : checkReferralBonusHandler st userId
      = (Except.ok true,
          { users := Function.update st.users referrerId
              (some { r with balance := r.balance + 5 / 100 })
            markers := fun a b =>
              if a = referrerId ∧ b = userId then true else st.markers a b }) := by
    simp only [checkReferralBonusHandler, hu, href, hr]
    rw [if_pos hads, if_pos ⟨hmark, hmined⟩]
  rw [h1]
  refine ⟨rfl, by simp, by simp, ?_, ?_⟩ <;>
  · by_cases hid : referrerId = userId
    · subst hid
      obtain rfl : u = r := Option.some.inj (hu.symm.trans hr)
      simp [checkReferralBonusHandler, Function.update_same, href, hads]
    · have hid2 : userId ≠ referrerId := fun hcontra => hid hcontra.symm
      simp [checkReferralBonusHandler, Function.update_noteq hid2,
        Function.update_same, hu, href, hads, hid]

/-- Referee qualifying for the one-time referrer bonus, for the C5 witness. -/
def bonusReferee : UserData :=
  { initialUserData "ECOBREF" 0 with
      referredBy := some "R2", adsWatchedToday := 3, totalMined := 1 }

/-- Referrer credited by the one-time bonus, for the C5 witness. -/
def bonusReferrer : UserData := initialUserData "ECOBRFR" 0

/-- Bonus-check state holding the referee U2 and the referrer R2 with no
marker set, for the C5 witness. -/
def bonusState : BonusState :=
  { users := fun id =>
      if id = "U2" then some bonusReferee
      else if id = "R2" then some bonusReferrer else none
    markers := fun _ _ => false }

/-- C5 (witness): on the concrete qualifying state the first call credits
R2 with $0.05 and sets the marker, and the second call reports no bonus and
changes nothing. -/
theorem checkBonus_credits_exactly_once_witness :
    (checkReferralBonusHandler bonusState "U2").1 = Except.ok true
      ∧ (checkReferralBonusHandler bonusState "U2").2.users "R2"
          = some { bonusReferrer with balance := bonusReferrer.balance + 5 / 100 }
      ∧ (checkReferralBonusHandler bonusState "U2").2.markers "R2" "U2" = true
      ∧ (checkReferralBonusHandler
            (checkReferralBonusHandler bonusState "U2").2 "U2").1 = Except.ok false
      ∧ (checkReferralBonusHandler
            (checkReferralBonusHandler bonusState "U2").2 "U2").2
          = (checkReferralBonusHandler bonusState "U2").2 :=
  checkBonus_credits_exactly_once bonusState "U2" "R2" bonusReferee bonusReferrer
    (by simp [bonusState]) (by simp [bonusReferee, initialUserData])
    (by simp [bonusReferee, initialUserData]) (by simp [bonusState])
    (by norm_num [bonusReferee, initialUserData]) (by simp [bonusState])

end EcoMiner
